import Mathlib

/-!
Verification of the batch push-notification delivery engine of this
repository against its design specification.

The executable heart of the repository is the class
`BatchNotificationSender` in `src/tools/batch-sender.js`:

* `sendSingleNotification(notification, retryCount)` publishes one
  notification, catching any error; while `retryCount < maxRetries` a
  failed publish is retried after waiting the constant `retryDelay`,
  otherwise a terminal failure record is returned.
* `sendBatch(notifications)` slices the input into consecutive groups of
  `batchSize` and maps every notification of every group through
  `sendSingleNotification`, concatenating all results in order.
* `generateSummary(results)` partitions the results by the boolean
  `success` field and counts both sides.

The provider call `sns.publish` is modelled as an oracle
`attempt : Nat -> SendOutcome` giving the outcome of the k-th publish
attempt for the notification at hand.  Ghost instrumentation
(`sendRun`) additionally records how many provider calls were made and
which delays were awaited, without changing the computed result
(`sendRun_result`).

The registration-identifier validator (`validateFCMToken` and
`FCMTokenValidator.validateTokenFormat`, file `src/unnamed/part_011`)
is embedded over `String`, a string being its list of characters.

The circuit breaker exists in the repository only as a roadmap entry
(`src/unnamed/part_000`, Enhanced Error Handling); its model below is
built from the specification text and is marked as such.
-/

/-! ## Data model (from src/tools/batch-sender.js) -/

/-- Outcome of one provider publish attempt (`sns.publish(...).promise()`):
either a resolved result carrying a MessageId, or a thrown error carrying
its message. -/
inductive SendOutcome where
  | ok (messageId : String)
  | err (msg : String)
deriving DecidableEq

/-- Boolean test for the error case of a publish attempt. -/
def SendOutcome.isErr : SendOutcome → Bool
  | .ok _ => false
  | .err _ => true

/-- One notification of the input list; the fields the sender reads.
`title` and `message` are optional in the source and are not consulted by
the send path, only by `validateNotification` (not modelled here). -/
structure Notification where
  fcmToken : String
  title : Option String
  message : Option String
deriving DecidableEq

/-- The per-notification record built by `sendSingleNotification`: the
success record carries a MessageId, the failure record an error message;
both carry the redacted token.  Absent fields are `none`. -/
structure SendResult where
  success : Bool
  messageId : Option String
  error : Option String
  fcmToken : String
deriving DecidableEq

/-- The state of a constructed `BatchNotificationSender` (its constructor
fields, after the `options.x || default` resolution).  Sizes, delays and
retry counts are modelled as natural numbers; `resolveBatchSize` below
models the JavaScript falsy-default resolution itself, over `Int`. -/
structure BatchNotificationSender where
  snsTopicArn : String
  batchSize : Nat
  delayBetweenBatches : Nat
  maxRetries : Nat
  retryDelay : Nat
deriving DecidableEq

/-- Embedding of the constructor line `this.batchSize = options.batchSize || 10`.
For an integer option the JavaScript `||` keeps any non-zero value
(zero is falsy and falls through to the default 10); an absent option
(`none`) also gives 10.  The constructor performs no validation and can
not throw. -/
def resolveBatchSize : Option Int → Int
  | none => 10
  | some b => if b = 0 then 10 else b

/-- Token redaction used in every result record:
`notification.fcmToken.substring(0, 10) + '...'`. -/
def redactToken (t : String) : String := t.take 10 ++ "..."

/-! ## sendSingleNotification (src/tools/batch-sender.js lines 56-100) -/

/-- Embedding of `sendSingleNotification(notification, retryCount)`.
`attempt k` is the outcome of the publish attempt made with
`retryCount = k`.  On a resolved publish it returns the success record;
on a thrown error it recurses with `retryCount + 1` while
`retryCount < maxRetries` (after awaiting `retryDelay`, see `sendRun`),
and otherwise returns the terminal failure record.  The recursion is
well-founded, decreasing `maxRetries - retryCount`. -/
def sendSingleNotification (sender : BatchNotificationSender)
    (attempt : Nat → SendOutcome) (n : Notification) (retryCount : Nat) : SendResult :=
  match attempt retryCount with
  | .ok mid =>
      { success := true, messageId := some mid, error := none,
        fcmToken := redactToken n.fcmToken }
  | .err m =>
      if retryCount < sender.maxRetries then
        sendSingleNotification sender attempt n (retryCount + 1)
      else
        { success := false, messageId := none, error := some m,
          fcmToken := redactToken n.fcmToken }
termination_by sender.maxRetries - retryCount
decreasing_by omega

/-- Ghost-instrumented run of `sendSingleNotification`: the same recursion,
additionally counting provider invocations (`providerCalls`) and recording
the delay awaited before each retry (`retryDelays`, in retry order; the
source awaits `this.delay(this.retryDelay)` before every retry). -/
structure RunTrace where
  result : SendResult
  providerCalls : Nat
  retryDelays : List Nat
deriving DecidableEq

/-- The instrumented recursion; see `RunTrace`. -/
def sendRun (sender : BatchNotificationSender)
    (attempt : Nat → SendOutcome) (n : Notification) (retryCount : Nat) : RunTrace :=
  match attempt retryCount with
  | .ok mid =>
      { result := { success := true, messageId := some mid, error := none,
                    fcmToken := redactToken n.fcmToken },
        providerCalls := 1, retryDelays := [] }
  | .err m =>
      if retryCount < sender.maxRetries then
        let r := sendRun sender attempt n (retryCount + 1)
        { result := r.result, providerCalls := r.providerCalls + 1,
          retryDelays := sender.retryDelay :: r.retryDelays }
      else
        { result := { success := false, messageId := none, error := some m,
                      fcmToken := redactToken n.fcmToken },
          providerCalls := 1, retryDelays := [] }
termination_by sender.maxRetries - retryCount
decreasing_by omega

/-! ## sendBatch (src/tools/batch-sender.js lines 105-138) -/

/-- Embedding of the slicing loop of `sendBatch`:
`for (let i = 0; i < notifications.length; i += this.batchSize)`
with `notifications.slice(i, i + this.batchSize)` as the batch.  The
guard returning `[]` for `bs = 0` is an artifact of totality: on a
non-positive batch size the source loop never advances `i` and does not
terminate, so the claims about this function assume `0 < bs`. -/
def batches {α : Type} (bs : Nat) : List α → List (List α)
  | [] => []
  | x :: xs =>
      if _h : bs = 0 then []
      else (x :: xs).take bs :: batches bs ((x :: xs).drop bs)
termination_by l => l.length
decreasing_by simp [List.length_drop]; omega

/-- Embedding of `sendBatch(notifications)`: slice the input with
`batches`, send every notification of every slice through
`sendSingleNotification` (with `retryCount = 0`), and concatenate the
per-slice result arrays in order.  `provider n` is the publish-outcome
oracle for notification `n`. -/
def sendBatch (sender : BatchNotificationSender)
    (provider : Notification → Nat → SendOutcome)
    (ns : List Notification) : List SendResult :=
  (batches sender.batchSize ns).flatMap
    (fun batch => batch.map (fun n => sendSingleNotification sender (provider n) n 0))

/-! ## generateSummary (src/tools/batch-sender.js lines 143-168) -/

/-- The counters of the summary object.  The floating-point
`successRate` percentage string and the wall-clock `timestamp` of the
source summary are display artifacts and are not modelled. -/
structure SummaryCounts where
  total : Nat
  successful : Nat
  failed : Nat
deriving DecidableEq

/-- The report returned by `generateSummary`.  `errorCounts` is the
grouping object modelled as an association list in first-appearance
order. -/
structure SummaryReport where
  summary : SummaryCounts
  errorCounts : List (String × Nat)
  failedNotifications : List SendResult
  sampleSuccesses : List SendResult
deriving DecidableEq

/-- Embedding of `errorCounts[error] = (errorCounts[error] || 0) + 1`
for one failed result. -/
def bumpErrorCount (acc : List (String × Nat)) (e : String) : List (String × Nat) :=
  match acc with
  | [] => [(e, 1)]
  | (k, v) :: rest => if k = e then (k, v + 1) :: rest else (k, v) :: bumpErrorCount rest e

/-- Embedding of `result.error || 'Unknown error'`: an absent error field
falls back to the default, and so does the empty string (falsy in the
source language). -/
def errorKeyOf (r : SendResult) : String :=
  match r.error with
  | none => "Unknown error"
  | some m => if m = "" then "Unknown error" else m

/-- Embedding of `generateSummary(results)`: partition the results by the
boolean `success` field, count both sides, group the failures by error
message, and keep the first 10 failures and first 5 successes. -/
def generateSummary (results : List SendResult) : SummaryReport :=
  let successful := results.filter (fun r => r.success)
  let failed := results.filter (fun r => !r.success)
  { summary :=
      { total := results.length,
        successful := successful.length,
        failed := failed.length },
    errorCounts := failed.foldl (fun acc r => bumpErrorCount acc (errorKeyOf r)) [],
    failedNotifications := failed.take 10,
    sampleSuccesses := successful.take 5 }

/-! ## Registration-identifier validator (src/unnamed/part_011) -/

/-- Characters matched by the allow-list `[A-Za-z0-9_:.-]` of the
validator regular expressions: ASCII letters, ASCII digits, underscore,
colon, dot and hyphen. -/
def isAllowedTokenChar (c : Char) : Bool :=
  decide ((65 ≤ c.toNat ∧ c.toNat ≤ 90) ∨ (97 ≤ c.toNat ∧ c.toNat ≤ 122) ∨
    (48 ≤ c.toNat ∧ c.toNat ≤ 57) ∨ c = '_' ∨ c = ':' ∨ c = '.' ∨ c = '-')

/-- Embedding of `validateFCMToken(token)` (src/unnamed/part_011 lines
146-162).  `none` models a missing or non-string argument; the empty
string is falsy and is rejected by the first guard.  Then the length must
lie in the inclusive range 140 to 200 and the regular expression
`[A-Za-z0-9_:.-]+` anchored at both ends must match, i.e. every character
is on the allow-list (emptiness was already excluded). -/
def validateFCMToken : Option String → Bool
  | none => false
  | some token =>
      if token = "" then false
      else if token.length < 140 || 200 < token.length then false
      else token.data.all isAllowedTokenChar

/-- Characters matched by the class `[A-Za-z0-9_-]` of the head pattern of
`validateTokenFormat` (colon and dot excluded). -/
def isHeadPatternChar (c : Char) : Bool :=
  decide ((65 ≤ c.toNat ∧ c.toNat ≤ 90) ∨ (97 ≤ c.toNat ∧ c.toNat ≤ 122) ∨
    (48 ≤ c.toNat ∧ c.toNat ≤ 57) ∨ c = '_' ∨ c = '-')

/-- Match of the unanchored-tail pattern `[A-Za-z0-9_-]+:[A-Za-z0-9_-]+`
anchored at the start, as tested by `validateTokenFormat`: a nonempty run
of head-pattern characters, a colon, then at least one more head-pattern
character.  Because the colon is not in the class, matching the maximal
run is equivalent to the backtracking search of the source regex. -/
def hasCanonicalHead (cs : List Char) : Bool :=
  let head := cs.takeWhile isHeadPatternChar
  decide (head ≠ []) &&
    (match cs.drop head.length with
     | ':' :: d :: _ => isHeadPatternChar d
     | _ => false)

/-- Result object of `FCMTokenValidator.validateTokenFormat`. -/
structure FormatCheck where
  valid : Bool
  errors : List String
deriving DecidableEq

/-- Embedding of `FCMTokenValidator.validateTokenFormat(token)`
(src/unnamed/part_011 lines 356-385): the same three checks as
`validateFCMToken`, each contributing an error string, plus a fourth
check that the token starts with the canonical-head pattern; `valid`
holds exactly when no error was collected. -/
def validateTokenFormat : Option String → FormatCheck
  | none => { valid := false, errors := ["Token must be a non-empty string"] }
  | some token =>
      if token = "" then { valid := false, errors := ["Token must be a non-empty string"] }
      else
        let lenErrors :=
          if token.length < 140 then ["Token too short (minimum 140 characters)"]
          else if 200 < token.length then ["Token too long (maximum 200 characters)"]
          else []
        let charErrors :=
          if token.data.all isAllowedTokenChar then []
          else ["Token contains invalid characters"]
        let headErrors :=
          if hasCanonicalHead token.data then []
          else ["Token does not match expected FCM format"]
        let errors := lenErrors ++ charErrors ++ headErrors
        { valid := decide (errors = []), errors := errors }

/-! ## Spec-modelled delivery-outcome classification -/

/-- Modelled from the spec: the per-recipient outcome classes of the
DeliveryOutcome taxonomy that matter for the retry decision.  The source
sender has no classifier; a caught error carries only its message. -/
inductive DeliveryOutcomeClass where
  | invalidRecipient
  | recipientMoved
  | transient
deriving DecidableEq

/-- Permanent classes are never to be retried according to the spec. -/
def DeliveryOutcomeClass.permanent : DeliveryOutcomeClass → Bool
  | .invalidRecipient => true
  | .recipientMoved => true
  | .transient => false

/-- Modelled from the spec: the classification table of section 4.5
(syntax or unregistered errors give InvalidRecipient, a canonical
replacement gives RecipientMoved, everything else retryable is
Transient), keyed here on representative error messages, since the
source engine classifies nothing and only ever looks at `retryCount`. -/
def classifyErrorMessage (m : String) : DeliveryOutcomeClass :=
  if m = "InvalidRecipient" ∨ m = "unregistered" ∨ m = "not-found" then .invalidRecipient
  else if m = "RecipientMoved" ∨ m = "canonical-id-returned" then .recipientMoved
  else .transient

/-! ## Spec-modelled circuit breaker (roadmap item, src/unnamed/part_000) -/

/-- Modelled from the spec: the three breaker states of section 4.4.
`tripped t` is the Open state entered at time `t`; the repository
contains no circuit-breaker implementation, only the Enhanced Error
Handling roadmap entry announcing one. -/
inductive BreakerState where
  | closed (consecutiveFailures : Nat)
  | tripped (openedAt : Nat)
  | halfOpen
deriving DecidableEq

/-- Outcome of one dispatch attempt through the breaker. -/
inductive BreakerOutcome where
  | delivered
  | transientFailure
  | circuitOpen
deriving DecidableEq

/-- One dispatch step through the breaker: the successor state, the
outcome, and whether the provider was actually invoked. -/
structure BreakerStep where
  state : BreakerState
  outcome : BreakerOutcome
  providerInvoked : Bool
deriving DecidableEq

/-- Modelled from the spec: one dispatch attempt at time `now` against
breaker state `s`, where `providerOk` is what the provider would answer
if invoked.  Closed lets the call pass and counts consecutive failures,
tripping to Open at `threshold`; Open fails fast with CircuitOpen and no
provider call until `cooldown` has elapsed, after which the HalfOpen
probe is allowed: probe success closes the breaker, probe failure
reopens it. -/
def breakerDispatch (threshold cooldown now : Nat) (s : BreakerState)
    (providerOk : Bool) : BreakerStep :=
  match s with
  | .closed f =>
      if providerOk then { state := .closed 0, outcome := .delivered, providerInvoked := true }
      else if threshold ≤ f + 1 then
        { state := .tripped now, outcome := .transientFailure, providerInvoked := true }
      else { state := .closed (f + 1), outcome := .transientFailure, providerInvoked := true }
  | .tripped t =>
      if t + cooldown ≤ now then
        if providerOk then { state := .closed 0, outcome := .delivered, providerInvoked := true }
        else { state := .tripped now, outcome := .transientFailure, providerInvoked := true }
      else { state := .tripped t, outcome := .circuitOpen, providerInvoked := false }
  | .halfOpen =>
      if providerOk then { state := .closed 0, outcome := .delivered, providerInvoked := true }
      else { state := .tripped now, outcome := .transientFailure, providerInvoked := true }

/-- Fold of `breakerDispatch` over a list of timed attempts. -/
def breakerRun (threshold cooldown : Nat) (s : BreakerState) :
    List (Nat × Bool) → BreakerState
  | [] => s
  | (now, ok) :: rest =>
      breakerRun threshold cooldown (breakerDispatch threshold cooldown now s ok).state rest

/-! ## Lemmas -/

/-- The instrumentation does not change the computed record. -/
theorem sendRun_result (sender : BatchNotificationSender)
    (attempt : Nat → SendOutcome) (n : Notification) (retryCount : Nat) :
    (sendRun sender attempt n retryCount).result
      = sendSingleNotification sender attempt n retryCount := by
  have key : ∀ (fuel k : Nat), sender.maxRetries - k ≤ fuel →
      (sendRun sender attempt n k).result = sendSingleNotification sender attempt n k := by
    intro fuel
    induction fuel with
    | zero =>
        intro k hk
        have hnot : ¬ k < sender.maxRetries := by omega
        rw [sendRun, sendSingleNotification]
        cases hA : attempt k with
        | ok mid => simp
        | err m => simp [hnot]
    | succ f ih =>
        intro k hk
        rw [sendRun, sendSingleNotification]
        cases hA : attempt k with
        | ok mid => simp
        | err m =>
            by_cases hlt : k < sender.maxRetries
            · simp [hlt, ih (k + 1) (by omega)]
            · simp [hlt]
  exact key (sender.maxRetries - retryCount) retryCount le_rfl

/-- Empty input yields no batch. -/
theorem batches_nil {α : Type} (bs : Nat) : batches bs ([] : List α) = [] := by
  rw [batches]

/-- Unfolding equation for a nonempty input and a positive batch size. -/
theorem batches_cons {α : Type} (bs : Nat) (hbs : 0 < bs) (x : α) (xs : List α) :
    batches bs (x :: xs) = (x :: xs).take bs :: batches bs ((x :: xs).drop bs) := by
  rw [batches]
  simp [Nat.pos_iff_ne_zero.mp hbs]

/-- Concatenating the batches restores the input list: the slicing is
consecutive and order-preserving, with no loss and no duplication. -/
theorem batches_flatten {α : Type} (bs : Nat) (hbs : 0 < bs) (l : List α) :
    (batches bs l).flatten = l := by
  have key : ∀ (fuel : Nat) (l : List α), l.length ≤ fuel → (batches bs l).flatten = l := by
    intro fuel
    induction fuel with
    | zero =>
        intro l hl
        have : l = [] := List.length_eq_zero.mp (Nat.le_zero.mp hl)
        simp [this, batches_nil]
    | succ f ih =>
        intro l hl
        cases l with
        | nil => simp [batches_nil]
        | cons x xs =>
            rw [batches_cons bs hbs]
            have hdrop : ((x :: xs).drop bs).length ≤ f := by
              simp only [List.length_drop, List.length_cons] at *
              omega
            simp only [List.flatten_cons, ih _ hdrop, List.take_append_drop]
  exact key l.length l le_rfl

/-- Every batch has at most `bs` elements. -/
theorem batches_size_le {α : Type} (bs : Nat) (hbs : 0 < bs) (l : List α) :
    ∀ b ∈ batches bs l, b.length ≤ bs := by
  have key : ∀ (fuel : Nat) (l : List α), l.length ≤ fuel →
      ∀ b ∈ batches bs l, b.length ≤ bs := by
    intro fuel
    induction fuel with
    | zero =>
        intro l hl
        have : l = [] := List.length_eq_zero.mp (Nat.le_zero.mp hl)
        simp [this, batches_nil]
    | succ f ih =>
        intro l hl
        cases l with
        | nil => simp [batches_nil]
        | cons x xs =>
            rw [batches_cons bs hbs]
            intro b hb
            rcases List.mem_cons.mp hb with hhead | htail
            · subst hhead
              simp only [List.length_take, List.length_cons]
              omega
            · exact ih ((x :: xs).drop bs)
                (by simp only [List.length_drop, List.length_cons] at *; omega) b htail
  exact key l.length l le_rfl

/-- Every batch except possibly the last has exactly `bs` elements. -/
theorem batches_size_eq {α : Type} (bs : Nat) (hbs : 0 < bs) (l : List α) :
    ∀ b ∈ (batches bs l).dropLast, b.length = bs := by
  have key : ∀ (fuel : Nat) (l : List α), l.length ≤ fuel →
      ∀ b ∈ (batches bs l).dropLast, b.length = bs := by
    intro fuel
    induction fuel with
    | zero =>
        intro l hl
        have : l = [] := List.length_eq_zero.mp (Nat.le_zero.mp hl)
        simp [this, batches_nil]
    | succ f ih =>
        intro l hl
        cases l with
        | nil => simp [batches_nil]
        | cons x xs =>
            rw [batches_cons bs hbs]
            cases hrest : batches bs ((x :: xs).drop bs) with
            | nil => simp
            | cons c cs =>
                intro b hb
                rw [List.dropLast_cons₂] at hb
                rcases List.mem_cons.mp hb with hhead | htail
                · subst hhead
                  have hdropne : (x :: xs).drop bs ≠ [] := by
                    intro hnil
                    rw [hnil, batches_nil] at hrest
                    exact List.noConfusion hrest
                  have hlt : bs < (x :: xs).length := by
                    by_contra hge
                    exact hdropne (List.drop_eq_nil_of_le (by omega))
                  simp only [List.length_take, List.length_cons] at *
                  omega
                · have := ih ((x :: xs).drop bs)
                    (by simp only [List.length_drop, List.length_cons] at *; omega)
                  rw [hrest] at this
                  exact this b htail
  exact key l.length l le_rfl

/-- Helper: flatMap as flatten after map. -/
theorem flatMap_eq_flatten_map {α β : Type} (l : List α) (f : α → List β) :
    l.flatMap f = (l.map f).flatten := by
  induction l with
  | nil => rfl
  | cons x xs ih => simp [List.flatMap]

/-- `sendBatch` is the plain map of the per-notification send over the
input, in input order. -/
theorem sendBatch_eq_map (sender : BatchNotificationSender)
    (provider : Notification → Nat → SendOutcome)
    (ns : List Notification) (hbs : 0 < sender.batchSize) :
    sendBatch sender provider ns
      = ns.map (fun n => sendSingleNotification sender (provider n) n 0) := by
  unfold sendBatch
  rw [flatMap_eq_flatten_map, ← List.map_flatten, batches_flatten _ hbs]

/-- Helper: a boolean filter and its complement partition a list by length. -/
theorem length_filter_add_length_filter_not {α : Type} (p : α → Bool) (l : List α) :
    (l.filter p).length + (l.filter (fun x => !p x)).length = l.length := by
  induction l with
  | nil => rfl
  | cons x xs ih => by_cases h : p x <;> simp [List.filter, h] <;> omega

/-- At least one provider call is always made. -/
theorem sendRun_providerCalls_pos (sender : BatchNotificationSender)
    (attempt : Nat → SendOutcome) (n : Notification) (retryCount : Nat) :
    1 ≤ (sendRun sender attempt n retryCount).providerCalls := by
  rw [sendRun]
  cases hA : attempt retryCount with
  | ok mid => simp
  | err m =>
      by_cases hlt : retryCount < sender.maxRetries
      · simp [hlt]
      · simp [hlt]

/-- Starting from `retryCount = k`, at most `maxRetries - k + 1` provider
calls are made (so at most `maxRetries - k` retries). -/
theorem sendRun_providerCalls_le (sender : BatchNotificationSender)
    (attempt : Nat → SendOutcome) (n : Notification) (k : Nat) :
    (sendRun sender attempt n k).providerCalls ≤ sender.maxRetries - k + 1 := by
  have key : ∀ (fuel j : Nat), sender.maxRetries - j ≤ fuel →
      (sendRun sender attempt n j).providerCalls ≤ sender.maxRetries - j + 1 := by
    intro fuel
    induction fuel with
    | zero =>
        intro j hj
        have hnot : ¬ j < sender.maxRetries := by omega
        rw [sendRun]
        cases hA : attempt j with
        | ok mid => simp
        | err m => simp [hnot]
    | succ f ih =>
        intro j hj
        rw [sendRun]
        cases hA : attempt j with
        | ok mid => simp
        | err m =>
            by_cases hlt : j < sender.maxRetries
            · have := ih (j + 1) (by omega)
              simp only [hlt, if_true]
              simp only [RunTrace.mk.injEq] at *
              omega
            · simp [hlt]
  exact key (sender.maxRetries - k) k le_rfl

/-- When every attempt throws, the run from `retryCount = k ≤ maxRetries`
makes exactly `maxRetries - k + 1` provider calls and ends in a failure
record. -/
theorem sendRun_all_err (sender : BatchNotificationSender)
    (attempt : Nat → SendOutcome) (n : Notification)
    (hall : ∀ j, (attempt j).isErr = true) (k : Nat) (hk : k ≤ sender.maxRetries) :
    (sendRun sender attempt n k).providerCalls = sender.maxRetries - k + 1 ∧
    (sendRun sender attempt n k).result.success = false := by
  have key : ∀ (fuel j : Nat), sender.maxRetries - j ≤ fuel → j ≤ sender.maxRetries →
      (sendRun sender attempt n j).providerCalls = sender.maxRetries - j + 1 ∧
      (sendRun sender attempt n j).result.success = false := by
    intro fuel
    induction fuel with
    | zero =>
        intro j hj hj2
        have hnot : ¬ j < sender.maxRetries := by omega
        rw [sendRun]
        cases hA : attempt j with
        | ok mid => have := hall j; rw [hA] at this; exact absurd this (by simp [SendOutcome.isErr])
        | err m => simp [hnot]; omega
    | succ f ih =>
        intro j hj hj2
        rw [sendRun]
        cases hA : attempt j with
        | ok mid => have := hall j; rw [hA] at this; exact absurd this (by simp [SendOutcome.isErr])
        | err m =>
            by_cases hlt : j < sender.maxRetries
            · have hrec := ih (j + 1) (by omega) (by omega)
              simp only [hlt, if_true]
              constructor
              · simp only [hrec.1]; omega
              · exact hrec.2
            · simp [hlt]; omega
  exact key (sender.maxRetries - k) k le_rfl hk

/-- Every recorded retry delay is the constant `retryDelay` of the sender. -/
theorem sendRun_retryDelays_const (sender : BatchNotificationSender)
    (attempt : Nat → SendOutcome) (n : Notification) (k : Nat) :
    ∀ d ∈ (sendRun sender attempt n k).retryDelays, d = sender.retryDelay := by
  have key : ∀ (fuel j : Nat), sender.maxRetries - j ≤ fuel →
      ∀ d ∈ (sendRun sender attempt n j).retryDelays, d = sender.retryDelay := by
    intro fuel
    induction fuel with
    | zero =>
        intro j hj
        have hnot : ¬ j < sender.maxRetries := by omega
        rw [sendRun]
        cases hA : attempt j with
        | ok mid => simp
        | err m => simp [hnot]
    | succ f ih =>
        intro j hj
        rw [sendRun]
        cases hA : attempt j with
        | ok mid => simp
        | err m =>
            by_cases hlt : j < sender.maxRetries
            · simp only [hlt, if_true]
              intro d hd
              rcases List.mem_cons.mp hd with hhead | htail
              · exact hhead
              · exact ih (j + 1) (by omega) d htail
            · simp [hlt]
  exact key (sender.maxRetries - k) k le_rfl

/-- The token field of the computed record is always the redacted token,
on the success path and on the terminal-failure path alike. -/
theorem sendSingleNotification_fcmToken (sender : BatchNotificationSender)
    (attempt : Nat → SendOutcome) (n : Notification) (k : Nat) :
    (sendSingleNotification sender attempt n k).fcmToken = redactToken n.fcmToken := by
  have key : ∀ (fuel j : Nat), sender.maxRetries - j ≤ fuel →
      (sendSingleNotification sender attempt n j).fcmToken = redactToken n.fcmToken := by
    intro fuel
    induction fuel with
    | zero =>
        intro j hj
        have hnot : ¬ j < sender.maxRetries := by omega
        rw [sendSingleNotification]
        cases hA : attempt j with
        | ok mid => simp
        | err m => simp [hnot]
    | succ f ih =>
        intro j hj
        rw [sendSingleNotification]
        cases hA : attempt j with
        | ok mid => simp
        | err m =>
            by_cases hlt : j < sender.maxRetries
            · simp [hlt, ih (j + 1) (by omega)]
            · simp [hlt]
  exact key (sender.maxRetries - k) k le_rfl

/-- The two validators of the repository differ: `validateTokenFormat` is
`validateFCMToken` strengthened by the canonical-head pattern check. -/
theorem validateTokenFormat_valid (s : String) :
    (validateTokenFormat (some s)).valid
      = (validateFCMToken (some s) && hasCanonicalHead s.data) := by
  unfold validateTokenFormat validateFCMToken
  by_cases h1 : s = ""
  · simp [h1]
  · by_cases h2 : s.length < 140
    · simp [h1, h2]
    · by_cases h3 : 200 < s.length
      · simp [h1, h2, h3]
      · by_cases h4 : s.data.all isAllowedTokenChar
        · by_cases h5 : hasCanonicalHead s.data
          · simp [h1, h2, h3, h4, h5]
          · simp [h1, h2, h3, h4, h5]
        · simp [h1, h2, h3, h4]

/-! ## Claims -/

/-- Claim C1: for every notification list given to `sendBatch` (with a
positive batch size, the only case in which the source loop terminates),
the returned results list is exactly the input list mapped through
`sendSingleNotification`, hence contains exactly one entry per input
notification in input order, for every provider oracle, including one on
which every individual send fails. -/
theorem sendBatch_complete (sender : BatchNotificationSender)
    (provider : Notification → Nat → SendOutcome) (ns : List Notification)
    (hbs : 0 < sender.batchSize) :
    sendBatch sender provider ns
      = ns.map (fun n => sendSingleNotification sender (provider n) n 0) ∧
    (sendBatch sender provider ns).length = ns.length := by
  have h := sendBatch_eq_map sender provider ns hbs
  exact ⟨h, by rw [h, List.length_map]⟩

/-- Witness for C1: three notifications, batch size 2, a provider on
which every send fails; the report still has exactly three entries. -/
theorem sendBatch_complete_witness :
    0 < (⟨"arn", 2, 1000, 3, 2000⟩ : BatchNotificationSender).batchSize ∧
    (sendBatch ⟨"arn", 2, 1000, 3, 2000⟩ (fun _ _ => SendOutcome.err "boom")
        [⟨"t1", none, none⟩, ⟨"t2", none, none⟩, ⟨"t3", none, none⟩]).length = 3 := by
  refine ⟨by decide, ?_⟩
  have h := (sendBatch_complete ⟨"arn", 2, 1000, 3, 2000⟩ (fun _ _ => SendOutcome.err "boom")
      [⟨"t1", none, none⟩, ⟨"t2", none, none⟩, ⟨"t3", none, none⟩] (by decide)).2
  simpa using h

/-- Claim C2: for every notification list and every positive batch size,
the slicing of `sendBatch` is a deterministic, order-preserving
consecutive chunking: concatenating the batches restores the input, every
batch has size at most the batch size, every batch except possibly the
last has exactly that size, and the batch sizes sum to the input length. -/
theorem batches_plan_spec (bs : Nat) (ns : List Notification) (hbs : 0 < bs) :
    (batches bs ns).flatten = ns ∧
    (∀ b ∈ batches bs ns, b.length ≤ bs) ∧
    (∀ b ∈ (batches bs ns).dropLast, b.length = bs) ∧
    ((batches bs ns).map List.length).sum = ns.length := by
  refine ⟨batches_flatten bs hbs ns, batches_size_le bs hbs ns,
    batches_size_eq bs hbs ns, ?_⟩
  rw [← List.length_flatten, batches_flatten bs hbs ns]

/-- Witness for C2: five notifications chunked at size 2. -/
theorem batches_plan_spec_witness :
    0 < 2 ∧
    (batches 2 [(⟨"t1", none, none⟩ : Notification), ⟨"t2", none, none⟩,
        ⟨"t3", none, none⟩, ⟨"t4", none, none⟩, ⟨"t5", none, none⟩]).flatten
      = [(⟨"t1", none, none⟩ : Notification), ⟨"t2", none, none⟩,
        ⟨"t3", none, none⟩, ⟨"t4", none, none⟩, ⟨"t5", none, none⟩] :=
  ⟨by decide,
    (batches_plan_spec 2 [⟨"t1", none, none⟩, ⟨"t2", none, none⟩,
      ⟨"t3", none, none⟩, ⟨"t4", none, none⟩, ⟨"t5", none, none⟩] (by decide)).1⟩

/-- Claim C3: the retry recursion of `sendSingleNotification` is bounded:
from `retryCount = 0` at most `maxRetries + 1` provider calls are made
(so at most `maxRetries` retries; the recursion is well-founded,
decreasing `maxRetries - retryCount`), and when every attempt keeps
failing the notification ends as a terminal failure record with
`success = false` after exactly `maxRetries + 1` calls, never being
retried further. -/
theorem sendSingleNotification_retry_bound (sender : BatchNotificationSender)
    (attempt : Nat → SendOutcome) (n : Notification) :
    (sendRun sender attempt n 0).providerCalls ≤ sender.maxRetries + 1 ∧
    ((∀ j, (attempt j).isErr = true) →
      (sendRun sender attempt n 0).providerCalls = sender.maxRetries + 1 ∧
      (sendSingleNotification sender attempt n 0).success = false) := by
  constructor
  · have h := sendRun_providerCalls_le sender attempt n 0
    simpa using h
  · intro hall
    have h := sendRun_all_err sender attempt n hall 0 (Nat.zero_le _)
    refine ⟨by simpa using h.1, ?_⟩
    rw [← sendRun_result]
    exact h.2

/-- Witness for C3: `maxRetries = 3` and a permanently failing provider
give exactly 4 provider calls and a terminal failure record. -/
theorem sendSingleNotification_retry_bound_witness :
    (sendRun ⟨"arn", 10, 1000, 3, 2000⟩ (fun _ => SendOutcome.err "x")
        ⟨"tok", none, none⟩ 0).providerCalls = 4 ∧
    (sendSingleNotification ⟨"arn", 10, 1000, 3, 2000⟩ (fun _ => SendOutcome.err "x")
        ⟨"tok", none, none⟩ 0).success = false := by
  have h := (sendSingleNotification_retry_bound ⟨"arn", 10, 1000, 3, 2000⟩
    (fun _ => SendOutcome.err "x") ⟨"tok", none, none⟩).2 (fun _ => rfl)
  exact ⟨h.1, h.2⟩

/-- Counterexample for C4: the error message InvalidRecipient is
classified permanent by the classification table of the spec, yet the
sender retries it like any other error: with `maxRetries = 3` the
notification is dispatched 4 times, so a second dispatch attempt does
occur for a permanently failing recipient. -/
theorem permanent_failure_retried_counterexample :
    (classifyErrorMessage "InvalidRecipient").permanent = true ∧
    (sendRun ⟨"arn", 10, 1000, 3, 2000⟩ (fun _ => SendOutcome.err "InvalidRecipient")
        ⟨"tok", none, none⟩ 0).providerCalls = 4 := by
  refine ⟨rfl, ?_⟩
  simp [sendRun]

/-- Amended C4: the retry decision of `sendSingleNotification` consults
only `retryCount < maxRetries` and never the error, so every failed
attempt, with a permanent error as much as with a transient one, is
followed by a further dispatch attempt while retries remain. -/
theorem retry_ignores_error_class (sender : BatchNotificationSender)
    (attempt : Nat → SendOutcome) (n : Notification) (k : Nat) (m : String)
    (hA : attempt k = SendOutcome.err m) (hk : k < sender.maxRetries) :
    2 ≤ (sendRun sender attempt n k).providerCalls := by
  rw [sendRun, hA]
  simp only [hk, if_true]
  show 2 ≤ (sendRun sender attempt n (k + 1)).providerCalls + 1
  have h := sendRun_providerCalls_pos sender attempt n (k + 1)
  omega

/-- Witness for the amended C4: the first attempt fails with the
permanently classified message and a second dispatch follows. -/
theorem retry_ignores_error_class_witness :
    (fun _ => SendOutcome.err "InvalidRecipient") 0
        = SendOutcome.err "InvalidRecipient" ∧
    0 < (⟨"arn", 10, 1000, 3, 2000⟩ : BatchNotificationSender).maxRetries ∧
    2 ≤ (sendRun ⟨"arn", 10, 1000, 3, 2000⟩ (fun _ => SendOutcome.err "InvalidRecipient")
        ⟨"tok", none, none⟩ 0).providerCalls :=
  ⟨rfl, by decide,
    retry_ignores_error_class ⟨"arn", 10, 1000, 3, 2000⟩
      (fun _ => SendOutcome.err "InvalidRecipient") ⟨"tok", none, none⟩ 0
      "InvalidRecipient" rfl (by decide)⟩

/-- Counterexample for C5: with the default `retryDelay = 2000` and a
provider that keeps timing out, the delays awaited before retry rounds
0, 1 and 2 are 2000, 2000 and 2000: the delay before round 1 is not
`base * 2^1 = 4000` and is not strictly larger than the delay before
round 0, although the source configures no cap that could have been
reached. -/
theorem backoff_counterexample :
    (sendRun ⟨"arn", 10, 1000, 3, 2000⟩ (fun _ => SendOutcome.err "timeout")
        ⟨"tok", none, none⟩ 0).retryDelays = [2000, 2000, 2000] := by
  simp [sendRun]

/-- Amended C5: the delay the engine waits before every retry round is
the constant `retryDelay`; there is no exponential growth, no cap and no
jitter. -/
theorem retry_delay_constant (sender : BatchNotificationSender)
    (attempt : Nat → SendOutcome) (n : Notification) :
    ∀ d ∈ (sendRun sender attempt n 0).retryDelays, d = sender.retryDelay :=
  sendRun_retryDelays_const sender attempt n 0

/-- Witness for the amended C5: a recorded delay of the failing run
equals the configured `retryDelay`. -/
theorem retry_delay_constant_witness :
    2000 ∈ (sendRun ⟨"arn", 10, 1000, 3, 2000⟩ (fun _ => SendOutcome.err "x")
        ⟨"tok", none, none⟩ 0).retryDelays ∧
    2000 = (⟨"arn", 10, 1000, 3, 2000⟩ : BatchNotificationSender).retryDelay := by
  constructor
  · simp [sendRun]
  · exact retry_delay_constant ⟨"arn", 10, 1000, 3, 2000⟩ (fun _ => SendOutcome.err "x")
      ⟨"tok", none, none⟩ 2000 (by simp [sendRun])

/-- Claim C6: with `threshold = 5`, five consecutive transient dispatch
failures trip the breaker from Closed to Open, and while the cooldown
has not elapsed every further dispatch attempt, the sixth included,
fails immediately with CircuitOpen and never invokes the provider. -/
theorem circuit_breaker_trip (cooldown t1 t2 t3 t4 t5 t6 : Nat)
    (h6 : t6 < t5 + cooldown) :
    breakerRun 5 cooldown (BreakerState.closed 0)
        [(t1, false), (t2, false), (t3, false), (t4, false), (t5, false)]
      = BreakerState.tripped t5 ∧
    (breakerDispatch 5 cooldown t6 (BreakerState.tripped t5) false).outcome
      = BreakerOutcome.circuitOpen ∧
    (breakerDispatch 5 cooldown t6 (BreakerState.tripped t5) false).providerInvoked
      = false ∧
    (∀ (now : Nat) (ok : Bool), now < t5 + cooldown →
      (breakerDispatch 5 cooldown now (BreakerState.tripped t5) ok).providerInvoked
        = false) := by
  have hlt : ¬ (t5 + cooldown ≤ t6) := by omega
  refine ⟨?_, ?_, ?_, ?_⟩
  · simp [breakerRun, breakerDispatch]
  · simp [breakerDispatch, hlt]
  · simp [breakerDispatch, hlt]
  · intro now ok hnow
    have : ¬ (t5 + cooldown ≤ now) := by omega
    simp [breakerDispatch, this]

/-- Witness for C6: five failures at times 1 to 5, sixth attempt at time
50 with cooldown 100. -/
theorem circuit_breaker_trip_witness :
    50 < 5 + 100 ∧
    (breakerDispatch 5 100 50 (BreakerState.tripped 5) false).providerInvoked = false :=
  ⟨by decide, (circuit_breaker_trip 100 1 2 3 4 5 50 (by decide)).2.2.1⟩

/-- Claim C7: `validateFCMToken` accepts a token exactly when it is
present, non-empty, of length between 140 and 200 inclusive, and made
only of allow-list characters (ASCII alphanumerics, underscore, colon,
dot, hyphen); in every other case, a missing token included, it
rejects. -/
theorem validateFCMToken_spec :
    validateFCMToken none = false ∧
    ∀ s : String, validateFCMToken (some s) = true ↔
      (s ≠ "" ∧ 140 ≤ s.length ∧ s.length ≤ 200 ∧
        s.data.all isAllowedTokenChar = true) := by
  refine ⟨rfl, fun s => ?_⟩
  unfold validateFCMToken
  by_cases h1 : s = ""
  · simp [h1]
  · by_cases h2 : s.length < 140
    · simp only [h1, if_false]
      simp [h2]
    · by_cases h3 : 200 < s.length
      · simp only [h1, if_false]
        simp [h2, h3]
      · have h140 : 140 ≤ s.length := by omega
        have h200 : s.length ≤ 200 := by omega
        simp [h1, h2, h3, h140, h200]

/-- Claim C9: `generateSummary` counts every result in exactly one of
the two buckets: `total` equals the number of results and
`successful + failed = total`. -/
theorem generateSummary_partition (results : List SendResult) :
    (generateSummary results).summary.total = results.length ∧
    (generateSummary results).summary.successful
        + (generateSummary results).summary.failed
      = (generateSummary results).summary.total := by
  refine ⟨rfl, ?_⟩
  simp only [generateSummary]
  exact length_filter_add_length_filter_not (fun r => r.success) results

/-- Counterexample for C8: constructing the sender with
`batchSize = 0` raises nothing and silently substitutes the default 10,
and a negative batch size is stored unchanged; no ConfigurationError
exists in the source. -/
theorem configuration_error_counterexample :
    resolveBatchSize (some 0) = 10 ∧ resolveBatchSize (some (-5)) = -5 := by
  exact ⟨rfl, rfl⟩

/-- Amended C8: the constructor never fails: a batch size of 0 (falsy)
silently falls back to the default 10, with which planning chunks the
input correctly, an absent batch size also gives 10, and any non-zero
value, negative values included, is stored unchanged. -/
theorem resolveBatchSize_no_error (b : Int) (_hb : b ≤ 0) :
    resolveBatchSize (some b) = (if b = 0 then 10 else b) ∧
    resolveBatchSize none = 10 ∧
    (∀ ns : List Notification, (batches (resolveBatchSize (some 0)).toNat ns).flatten = ns) := by
  refine ⟨rfl, rfl, fun ns => ?_⟩
  exact batches_flatten 10 (by decide) ns

/-- Witness for the amended C8 at batch size 0. -/
theorem resolveBatchSize_no_error_witness :
    (0 : Int) ≤ 0 ∧ resolveBatchSize (some 0) = (if (0 : Int) = 0 then 10 else 0) :=
  ⟨by decide, (resolveBatchSize_no_error 0 (by decide)).1⟩

/-- Claim C10: the reported token field is always exactly the first 10
characters of the token followed by three dots, on success and on
terminal failure alike, and it depends only on those first 10
characters: runs on tokens agreeing on their first 10 characters report
identical token fields, so the remaining characters never reach the
report. -/
theorem sendSingleNotification_redacts (sender : BatchNotificationSender)
    (attempt : Nat → SendOutcome) (n : Notification)
    (h : 10 ≤ n.fcmToken.length) :
    (sendSingleNotification sender attempt n 0).fcmToken = n.fcmToken.take 10 ++ "..." ∧
    (n.fcmToken.take 10).length = 10 ∧
    (∀ (sender' : BatchNotificationSender) (attempt' : Nat → SendOutcome)
        (n' : Notification),
      n'.fcmToken.take 10 = n.fcmToken.take 10 →
      (sendSingleNotification sender' attempt' n' 0).fcmToken
        = (sendSingleNotification sender attempt n 0).fcmToken) := by
  refine ⟨?_, ?_, ?_⟩
  · rw [sendSingleNotification_fcmToken]
    rfl
  · have hlen : 10 ≤ n.fcmToken.data.length := h
    simp only [String.length, String.take_eq, List.length_take]
    omega
  · intro sender' attempt' n' htake
    rw [sendSingleNotification_fcmToken, sendSingleNotification_fcmToken]
    unfold redactToken
    rw [htake]

/-- Witness for C10: a 16-character token is reported as its first 10
characters followed by three dots. -/
theorem sendSingleNotification_redacts_witness :
    10 ≤ ("abcdefghijKLMNOP" : String).length ∧
    (sendSingleNotification ⟨"arn", 10, 1000, 3, 2000⟩ (fun _ => SendOutcome.err "x")
        ⟨"abcdefghijKLMNOP", none, none⟩ 0).fcmToken
      = ("abcdefghijKLMNOP" : String).take 10 ++ "..." := by
  refine ⟨by decide, ?_⟩
  exact (sendSingleNotification_redacts ⟨"arn", 10, 1000, 3, 2000⟩
    (fun _ => SendOutcome.err "x") ⟨"abcdefghijKLMNOP", none, none⟩ (by decide)).1
